import Mathlib

/-!
Verification development for the Roblox catalog proxy server
(`src/server.js` and the two express-app variants in `src/unnamed/part_000`).

The source consists of three near-identical Express applications:
  * `server.js`            : search / item-detail / popular handlers, no rate
                             limiting middleware, 408 on search timeout.
  * `part_000`, variant A  : adds the global rate-limiting middleware
                             (`app.use`) and upstream-429 translation; item
                             details via the economy API.
  * `part_000`, variant B  : like `server.js` plus a category-listing handler.

All handlers are pure functions of the incoming request, the shared rate
window state, and the (abstract) upstream response, so they are embedded
below as plain Lean functions.  JavaScript object literals that become JSON
response bodies are embedded as ordered key/value lists where a key is
omitted exactly when the corresponding JS property value is `undefined`
(matching `JSON.stringify` / `res.json` behaviour).  Machine integers do not
overflow in any of the involved code paths, so numbers are modelled as
`Nat`/`Int`.
-/

/-- JSON-like values appearing in the proxy response bodies. -/
inductive JVal where
  | jnum : Int → JVal
  | jstr : String → JVal
  | jbool : Bool → JVal
deriving DecidableEq, Repr

/-- One record of the upstream catalog search response (`response.data.data`
element).  Every field the handlers read (`item.id`, `item.name`,
`item.price`, `item.description`, `item.productId`, `item.assetTypeId`,
`item.creatorName`, `item.isForSale`) may be absent (`undefined`), which is
modelled with `Option`. -/
structure UpstreamItem where
  id : Option Int
  name : Option String
  price : Option Int
  description : Option String
  productId : Option Int
  assetTypeId : Option Int
  creatorName : Option String
  isForSale : Option Bool
deriving DecidableEq, Repr

/-- JS `x || 0` for a possibly-absent number `x`: `undefined` and the falsy
number `0` both yield the default `0`. -/
def jsNumOrZero : Option Int → Int
  | some v => if v = 0 then 0 else v
  | none => 0

/-- JS `x || false` for a possibly-absent boolean `x`. -/
def jsBoolOrFalse : Option Bool → Bool
  | some b => b
  | none => false

/-- A JSON object field that is present exactly when the JS property value is
not `undefined` (undefined-valued properties are dropped by `res.json`). -/
def optField (k : String) (v : Option JVal) : List (String × JVal) :=
  match v with
  | some j => [(k, j)]
  | none => []

/-- The search handlers' per-item mapping (`formattedResults` in
`server.js` lines 54-63 and both `part_000` variants): fields `assetId`,
`name`, `price` (with `|| 0`), `description`, `productId`, `assetTypeId`,
`creator`, `isForSale` (with `|| false`), in source order. -/
def formatSearchItem (i : UpstreamItem) : List (String × JVal) :=
  optField "assetId" (i.id.map JVal.jnum)
    ++ optField "name" (i.name.map JVal.jstr)
    ++ [("price", JVal.jnum (jsNumOrZero i.price))]
    ++ optField "description" (i.description.map JVal.jstr)
    ++ optField "productId" (i.productId.map JVal.jnum)
    ++ optField "assetTypeId" (i.assetTypeId.map JVal.jnum)
    ++ optField "creator" (i.creatorName.map JVal.jstr)
    ++ [("isForSale", JVal.jbool (jsBoolOrFalse i.isForSale))]

/-- The popular-items handler's per-item mapping (`server.js` lines 144-150):
only `assetId`, `name`, `price`, `description`, `creator`. -/
def formatPopularItem (i : UpstreamItem) : List (String × JVal) :=
  optField "assetId" (i.id.map JVal.jnum)
    ++ optField "name" (i.name.map JVal.jstr)
    ++ [("price", JVal.jnum (jsNumOrZero i.price))]
    ++ optField "description" (i.description.map JVal.jstr)
    ++ optField "creator" (i.creatorName.map JVal.jstr)

/-- The category-listing handler's per-item mapping (`part_000` variant B,
lines 525-530): only `assetId`, `name`, `price`, `description`. -/
def formatCategoryItem (i : UpstreamItem) : List (String × JVal) :=
  optField "assetId" (i.id.map JVal.jnum)
    ++ optField "name" (i.name.map JVal.jstr)
    ++ [("price", JVal.jnum (jsNumOrZero i.price))]
    ++ optField "description" (i.description.map JVal.jstr)

/-- Search response body: the guard `if (!response.data.data) return
res.json([])` followed by the `formattedResults` mapping.  The upstream body
either lacks the `data` array (`none`) or carries a list of records. -/
def searchResponseBody (upstreamData : Option (List UpstreamItem)) :
    List (List (String × JVal)) :=
  match upstreamData with
  | none => []
  | some l => l.map formatSearchItem

/-- Popular-items response body (same empty-`data` guard). -/
def popularResponseBody (upstreamData : Option (List UpstreamItem)) :
    List (List (String × JVal)) :=
  match upstreamData with
  | none => []
  | some l => l.map formatPopularItem

/-- Category-listing response body (same empty-`data` guard). -/
def categoryResponseBody (upstreamData : Option (List UpstreamItem)) :
    List (List (String × JVal)) :=
  match upstreamData with
  | none => []
  | some l => l.map formatCategoryItem

/-- `List.lookup` distributes over append: the first list wins. -/
theorem lookup_append (k : String) (l1 l2 : List (String × JVal)) :
    (l1 ++ l2).lookup k =
      match l1.lookup k with
      | some v => some v
      | none => l2.lookup k := by
  induction l1 with
  | nil => simp [List.lookup]
  | cons a t ih =>
    cases a with
    | mk a1 a2 =>
      by_cases h : k = a1
      · simp [List.lookup, h]
      · have hb : (k == a1) = false := by simp [h]
        simp only [List.cons_append, List.lookup, hb]
        exact ih

/-- `List.lookup` on an optional singleton field. -/
theorem lookup_optField (k q : String) (v : Option JVal) :
    (optField k v).lookup q = if q = k then v else none := by
  cases v with
  | none => simp [optField, List.lookup]
  | some j =>
    by_cases h : q = k
    · simp [optField, List.lookup, h]
    · have hb : (q == k) = false := by simp [h]
      simp [optField, List.lookup, hb, h]

/-- The search mapping never emits an `itemType` key. -/
theorem formatSearchItem_itemType (i : UpstreamItem) :
    (formatSearchItem i).lookup "itemType" = none := by
  simp [formatSearchItem, lookup_append, lookup_optField, List.lookup]

/-- The search mapping passes `assetTypeId` through unchanged (present in the
body exactly when the upstream record carries it). -/
theorem formatSearchItem_assetTypeId (i : UpstreamItem) :
    (formatSearchItem i).lookup "assetTypeId" = i.assetTypeId.map JVal.jnum := by
  simp only [formatSearchItem, lookup_append, lookup_optField]
  cases i.assetTypeId <;> simp [List.lookup]

/-- The search mapping's `price` field is the base price with the `|| 0`
default. -/
theorem formatSearchItem_price (i : UpstreamItem) :
    (formatSearchItem i).lookup "price" = some (JVal.jnum (jsNumOrZero i.price)) := by
  simp [formatSearchItem, lookup_append, lookup_optField, List.lookup]

/-- The search mapping's `isForSale` field is the base flag with the
`|| false` default. -/
theorem formatSearchItem_isForSale (i : UpstreamItem) :
    (formatSearchItem i).lookup "isForSale" =
      some (JVal.jbool (jsBoolOrFalse i.isForSale)) := by
  simp [formatSearchItem, lookup_append, lookup_optField, List.lookup]

/-- The popular mapping's `price` field is the base price with `|| 0`. -/
theorem formatPopularItem_price (i : UpstreamItem) :
    (formatPopularItem i).lookup "price" = some (JVal.jnum (jsNumOrZero i.price)) := by
  simp [formatPopularItem, lookup_append, lookup_optField, List.lookup]

/-- The popular mapping emits no `isForSale` key at all. -/
theorem formatPopularItem_isForSale (i : UpstreamItem) :
    (formatPopularItem i).lookup "isForSale" = none := by
  simp [formatPopularItem, lookup_append, lookup_optField, List.lookup]

/-- The category mapping's `price` field is the base price with `|| 0`. -/
theorem formatCategoryItem_price (i : UpstreamItem) :
    (formatCategoryItem i).lookup "price" = some (JVal.jnum (jsNumOrZero i.price)) := by
  simp [formatCategoryItem, lookup_append, lookup_optField, List.lookup]

/-- The category mapping emits no `isForSale` key at all. -/
theorem formatCategoryItem_isForSale (i : UpstreamItem) :
    (formatCategoryItem i).lookup "isForSale" = none := by
  simp [formatCategoryItem, lookup_append, lookup_optField, List.lookup]

/-- Shared rate window state of the `part_000` variant-A middleware:
`requestCount` and `lastResetTime` (lines 13-14). -/
structure RateState where
  requestCount : Nat
  lastResetTime : Nat
deriving DecidableEq, Repr

/-- `MAX_REQUESTS_PER_MINUTE` (line 15). -/
def MAX_REQUESTS_PER_MINUTE : Nat := 10

/-- `error` field of the local governor's 429 body (line 34). -/
def rateLimitErrorText : String := "Rate limit exceeded"

/-- `message` field of the local governor's 429 body (line 35). -/
def rateLimitMessageText : String :=
  "Too many requests to Roblox API. Please try again in a minute."

/-- The local governor's 429 JSON body (lines 33-37). -/
structure RateLimitBody where
  error : String
  message : String
  retryAfter : Nat
deriving DecidableEq, Repr

/-- Result of the rate-limiting middleware on one request: either a denial
response (status plus body, shared state unchanged) or `next()` with the
updated state. -/
inductive MWResult where
  | denied : Nat → RateLimitBody → RateState → MWResult
  | passed : RateState → MWResult
deriving DecidableEq, Repr

/-- The rate-limiting middleware (`part_000` lines 21-42).  `timePassed` is
`now - lastResetTime`; if it exceeds 60000 ms the window is reset; a request
seeing `requestCount >= MAX_REQUESTS_PER_MINUTE` is denied with
`retryAfter = ceil((60000 - timePassed) / 1000)` (the denial branch is only
reachable without a reset, where `timePassed <= 60000`, so the `Nat`
subtraction is exact); otherwise the count is incremented and the request
proceeds.  Time is modelled as a `Nat` millisecond clock. -/
def rateMiddleware (st : RateState) (now : Nat) : MWResult :=
  let timePassed := now - st.lastResetTime
  let st1 := if 60000 < timePassed then RateState.mk 0 now else st
  if MAX_REQUESTS_PER_MINUTE ≤ st1.requestCount then
    .denied 429
      ⟨rateLimitErrorText, rateLimitMessageText, (60000 - timePassed + 999) / 1000⟩
      st1
  else
    .passed ⟨st1.requestCount + 1, st1.lastResetTime⟩

/-- State after a middleware invocation. -/
def mwState : MWResult → RateState
  | .denied _ _ s => s
  | .passed s => s

/-- Whether the middleware admitted the request. -/
def mwAdmitted : MWResult → Bool
  | .denied _ _ _ => false
  | .passed _ => true

/-- Outcomes of a sequence of requests hitting the middleware at the given
millisecond timestamps, threading the shared state. -/
def rateRun : RateState → List Nat → List MWResult
  | _, [] => []
  | st, t :: ts =>
    let r := rateMiddleware st t
    r :: rateRun (mwState r) ts

/-- Shared state after a sequence of requests. -/
def rateFinal : RateState → List Nat → RateState
  | st, [] => st
  | st, t :: ts => rateFinal (mwState (rateMiddleware st t)) ts

/-- JS `String.prototype.trim`: remove leading and trailing whitespace. -/
def jsTrim (s : String) : String :=
  ⟨((s.toList.dropWhile Char.isWhitespace).reverse.dropWhile
      Char.isWhitespace).reverse⟩

/-- JS truthiness/blank test on the search `query` parameter:
`!query || query.trim() === ''` (`server.js` line 20).  `none` models an
absent parameter (`undefined`); the empty string is falsy. -/
def queryInvalid : Option String → Bool
  | none => true
  | some q => q == "" || jsTrim q == ""

/-- Numeric value of a digit run. -/
def digitsVal (l : List Char) : Nat :=
  l.foldl (fun a c => a * 10 + (c.toNat - 48)) 0

/-- Leading digit run of `parseInt`: `none` when there is no leading digit
(which makes `parseInt` return `NaN`). -/
def digitsPart (l : List Char) : Option Nat :=
  let ds := l.takeWhile Char.isDigit
  if ds.isEmpty then none else some (digitsVal ds)

/-- JS `parseInt(s)` restricted to decimal inputs: skip leading whitespace,
optional sign, then the longest leading digit run; `none` models `NaN`.
(The hexadecimal `0x` form of `parseInt` is not modelled; no claim involves
it.) -/
def parseIntJS (s : String) : Option Int :=
  let l := s.toList.dropWhile Char.isWhitespace
  match l with
  | '-' :: r => (digitsPart r).map (fun n => -(n : Int))
  | '+' :: r => (digitsPart r).map (fun n => (n : Int))
  | _ => (digitsPart l).map (fun n => (n : Int))

/-- The `allowedLimit` computation (`server.js` lines 32-36, identical in
`part_000` lines 59-63 and 505-509): start from 30 and keep the parsed
requested limit only when it is one of 10, 28, 30.  `none` models the `NaN`
result of `parseInt`, which is not in the allowed set. -/
def allowedLimit (requestedLimit : Option Int) : Int :=
  match requestedLimit with
  | some v => if v = 10 ∨ v = 28 ∨ v = 30 then v else 30
  | none => 30

/-- Limit sent upstream for a request: the `limit` query parameter defaults
to 30 (`const { limit = 30 } = req.query`), then `allowedLimit` is applied to
`parseInt(limit)`. -/
def effectiveLimit (limit : Option String) : Int :=
  allowedLimit (parseIntJS (limit.getD "30"))

/-- Query parameters of the upstream catalog search call
(`server.js` lines 40-45). -/
structure SearchParams where
  Keyword : String
  Category : String
  Limit : Int
  SortType : String
deriving DecidableEq, Repr

/-- How far a search request gets before its upstream fetch, in the
rate-limited variant: denied by the governor, rejected by validation, or
handed to the upstream client with the given parameters. -/
inductive SearchOutcome where
  | rateLimited : Nat → RateLimitBody → SearchOutcome
  | validationError : Nat → String → SearchOutcome
  | upstreamFetch : SearchParams → SearchOutcome
deriving DecidableEq, Repr

/-- The pre-upstream part of handling `GET /api/search` in the rate-limited
variant (`part_000`): the `app.use` middleware (lines 21-42) runs first on
every request; only then does the route handler validate the query
(lines 47-53) and build the upstream call parameters (lines 59-72).
`queryInvalid` mirrors `!query || query.trim() === ''`. -/
def searchPipeline (st : RateState) (now : Nat) (query : Option String)
    (category : String) (limit : Option String) : SearchOutcome × RateState :=
  match rateMiddleware st now with
  | .denied s b st1 => (.rateLimited s b, st1)
  | .passed st1 =>
    match query with
    | none => (.validationError 400 "Search query is required", st1)
    | some q =>
      if queryInvalid (some q) then
        (.validationError 400 "Search query is required", st1)
      else
        (.upstreamFetch ⟨jsTrim q, category, effectiveLimit limit, "Relevance"⟩, st1)

/-- Upstream (axios) calls issued by one `server.js` search request: the
handler validates the query and otherwise performs exactly one `axios.get`
(lines 38-47); there is no cache and no per-item secondary call. -/
def serverSearchUpstreamCalls (query : Option String) : Nat :=
  if queryInvalid query then 0 else 1

/-- Upstream calls issued by a pair of identical search requests. -/
def pairUpstreamCalls (query : Option String) : Nat :=
  serverSearchUpstreamCalls query + serverSearchUpstreamCalls query

/-- Valid decimal numeric literal after an optional sign, as coerced by JS
`Number`: digits, digits `.` digits, digits `.`, or `.` digits. -/
def decimalCore (l : List Char) : Bool :=
  let ip := l.takeWhile Char.isDigit
  let rest := l.drop ip.length
  match rest with
  | [] => !ip.isEmpty
  | '.' :: frac => frac.all Char.isDigit && (!ip.isEmpty || !frac.isEmpty)
  | _ => false

/-- Whether a string coerces to a (decimal) number under JS `Number`. -/
def jsNumericString (s : String) : Bool :=
  match s.toList with
  | '-' :: r => decimalCore r
  | '+' :: r => decimalCore r
  | l => decimalCore l

/-- JS `isNaN(s)` for a string argument, restricted to decimal literals
(hexadecimal, exponent and Infinity forms are not modelled; no claim
involves them).  The empty string, for which JS `Number` gives 0, never
reaches this test in the handler because `!assetId` is checked first. -/
def jsIsNaN (s : String) : Bool :=
  !(jsNumericString s)

/-- First step of the item-detail handlers on the `assetId` route parameter:
`if (!assetId || isNaN(assetId))` return a 400 validation error, else
proceed to the upstream call (`server.js` lines 88-103, `part_000`
lines 118-139 and 417-432; the validation is identical in all three). -/
inductive ItemPhase where
  | validationError : ItemPhase
  | upstreamCall : ItemPhase
deriving DecidableEq, Repr

/-- The item-detail validation gate. -/
def itemDetailFirstStep (assetId : String) : ItemPhase :=
  if assetId = "" ∨ jsIsNaN assetId then .validationError else .upstreamCall

/-- The claim's notion of a well-formed positive integer string: nonempty,
digits only, with positive value.  (Stated from the specification text; used
only to express claim C5, not as part of the code embedding.) -/
def isWellFormedPositiveInt (s : String) : Bool :=
  !s.toList.isEmpty && s.toList.all Char.isDigit && decide (0 < digitsVal s.toList)

/-- What the catch blocks can observe of an axios failure:
`error.response?.status` (absent when no HTTP response arrived, e.g. on a
timeout), `error.code` (e.g. `ECONNABORTED` on a timeout), and
`error.message`. -/
structure AxiosError where
  status : Option Nat
  code : Option String
  message : String
deriving DecidableEq, Repr

/-- A proxy error response: HTTP status, `error` field, optional `details`
field.  (The auxiliary `message` fields of some bodies are not modelled;
no claim depends on their exact text.) -/
structure ErrResponse where
  httpStatus : Nat
  error : String
  details : Option String
deriving DecidableEq, Repr

/-- `error` field of the upstream-throttled translation in the rate-limited
variant (`part_000` lines 103 and 161). -/
def upstreamThrottledText : String := "Roblox API rate limit exceeded"

/-- Catch block of `GET /api/search` in the rate-limited variant
(`part_000` lines 98-112): upstream 429 becomes a local 429 with the
distinct upstream-throttled text; every other failure becomes a generic 500
carrying `error.message` in `details`. -/
def searchErrorResponseRL (e : AxiosError) : ErrResponse :=
  if e.status = some 429 then
    ⟨429, upstreamThrottledText, none⟩
  else
    ⟨500, "Failed to search catalog", some e.message⟩

/-- Catch block of `GET /api/item/:assetId` in the rate-limited variant
(`part_000` lines 156-183): upstream 429 becomes 429, upstream 400 becomes
404, upstream 404 becomes 404, anything else becomes a generic 500. -/
def itemErrorResponseRL (e : AxiosError) : ErrResponse :=
  if e.status = some 429 then
    ⟨429, upstreamThrottledText, none⟩
  else if e.status = some 400 then
    ⟨404, "Item not found or invalid asset ID", none⟩
  else if e.status = some 404 then
    ⟨404, "Item not found", none⟩
  else
    ⟨500, "Failed to get item details", some e.message⟩

/-- Catch block of `GET /api/item/:assetId` in `server.js` (lines 107-120):
upstream 404 becomes 404; anything else, including a timeout, becomes a
generic 500. -/
def itemErrorResponseSJ (e : AxiosError) : ErrResponse :=
  if e.status = some 404 then
    ⟨404, "Item not found", none⟩
  else
    ⟨500, "Failed to get item details", some e.message⟩

/-- Catch block of `GET /api/search` in `server.js` (lines 69-82): a timeout
(`error.code === 'ECONNABORTED'`) becomes 408; anything else becomes a
generic 500. -/
def searchErrorResponseSJ (e : AxiosError) : ErrResponse :=
  if e.code = some "ECONNABORTED" then
    ⟨408, "Request timeout - Roblox API is slow to respond", none⟩
  else
    ⟨500, "Failed to search catalog", some e.message⟩

/-- Helper for C1: from a window state with count `k` opened at `W`, a batch
of requests all arriving at most 60000 ms after `W` and fitting in the
remaining budget is admitted in full, and the final count is `k` plus the
batch length. -/
theorem rateRun_within_window (W : Nat) (ts : List Nat) :
    ∀ k : Nat, k + ts.length ≤ MAX_REQUESTS_PER_MINUTE →
      (∀ t ∈ ts, t - W ≤ 60000) →
      (∀ r ∈ rateRun ⟨k, W⟩ ts, mwAdmitted r = true) ∧
        rateFinal ⟨k, W⟩ ts = ⟨k + ts.length, W⟩ := by
  induction ts with
  | nil => intro k _ _; simp [rateRun, rateFinal]
  | cons t ts ih =>
    intro k hk hmem
    have h1 : ¬ 60000 < t - W := by
      have := hmem t (List.mem_cons_self t ts)
      omega
    have h2 : ¬ MAX_REQUESTS_PER_MINUTE ≤ k := by
      simp only [MAX_REQUESTS_PER_MINUTE] at *
      simp only [List.length_cons] at hk
      omega
    have hstep : rateMiddleware ⟨k, W⟩ t = .passed ⟨k + 1, W⟩ := by
      simp [rateMiddleware, h1, h2]
    have hk2 : (k + 1) + ts.length ≤ MAX_REQUESTS_PER_MINUTE := by
      simp only [List.length_cons] at hk
      omega
    have hmem2 : ∀ t2 ∈ ts, t2 - W ≤ 60000 :=
      fun t2 h => hmem t2 (List.mem_cons_of_mem t h)
    obtain ⟨hall, hfin⟩ := ih (k + 1) hk2 hmem2
    refine ⟨?_, ?_⟩
    · intro r hr
      simp only [rateRun, hstep, mwState, List.mem_cons] at hr
      rcases hr with rfl | hr
      · rfl
      · exact hall r hr
    · simp only [rateFinal, hstep, mwState]
      rw [hfin]
      simp only [List.length_cons]
      congr 1
      omega

/-- C1: in the rate-limited variant, starting from a fresh window opened at
`W`, every sequence of at most 10 requests arriving strictly within the
60-second window (less than 60000 ms after `W`) is admitted in full, and
once 10 requests have been admitted, the next request still inside the
window is denied with HTTP 429 and a `retryAfter` of
`ceil((60000 - elapsedMs) / 1000)` seconds, which is strictly positive. -/
theorem c1_rate_window (W next : Nat) (ts : List Nat)
    (hlen : ts.length ≤ MAX_REQUESTS_PER_MINUTE)
    (hts : ∀ t ∈ ts, W ≤ t ∧ t - W < 60000)
    (_hnextW : W ≤ next) (hnext : next - W < 60000) :
    (∀ r ∈ rateRun ⟨0, W⟩ ts, mwAdmitted r = true) ∧
      (ts.length = MAX_REQUESTS_PER_MINUTE →
        rateMiddleware (rateFinal ⟨0, W⟩ ts) next =
          .denied 429
            ⟨rateLimitErrorText, rateLimitMessageText,
              (60000 - (next - W) + 999) / 1000⟩
            ⟨MAX_REQUESTS_PER_MINUTE, W⟩ ∧
          0 < (60000 - (next - W) + 999) / 1000) := by
  obtain ⟨hall, hfin⟩ := rateRun_within_window W ts 0 (by simpa using hlen)
    (fun t h => by have := (hts t h).2; omega)
  refine ⟨hall, ?_⟩
  intro h10
  have hfin10 : rateFinal ⟨0, W⟩ ts = ⟨MAX_REQUESTS_PER_MINUTE, W⟩ := by
    rw [hfin, h10]
    simp
  have hnr : ¬ 60000 < next - W := by omega
  constructor
  · rw [hfin10]
    simp [rateMiddleware, hnr]
  · exact Nat.div_pos (by omega) (by omega)

/-- Witness for C1: ten requests at milliseconds 0 through 9 in the window
opened at 0 are all admitted, and an eleventh request at 50000 ms is denied
with `retryAfter = 10`. -/
theorem c1_rate_window_witness :
    rateMiddleware (rateFinal ⟨0, 0⟩ [0, 1, 2, 3, 4, 5, 6, 7, 8, 9]) 50000 =
      .denied 429
        ⟨rateLimitErrorText, rateLimitMessageText,
          (60000 - (50000 - 0) + 999) / 1000⟩
        ⟨MAX_REQUESTS_PER_MINUTE, 0⟩ ∧
      0 < (60000 - (50000 - 0) + 999) / 1000 :=
  (c1_rate_window 0 50000 [0, 1, 2, 3, 4, 5, 6, 7, 8, 9]
    (by decide) (by decide) (by decide) (by decide)).2 (by decide)

/-- C2 counterexample: the code has no response cache.  A pair of identical
valid searches (query `hat`) issues two upstream calls, not the single call
the claim asserts; the second request is recomputed, not served from a
cache. -/
theorem c2_counterexample :
    pairUpstreamCalls (some "hat") = 2 ∧ ¬ pairUpstreamCalls (some "hat") = 1 := by
  decide

/-- C2 amended: there is no cache in any variant; every search request with
a valid query performs its own upstream call, so a pair of identical
requests performs exactly two upstream calls. -/
theorem c2_no_cache_two_calls (q : Option String)
    (h : queryInvalid q = false) : pairUpstreamCalls q = 2 := by
  simp [pairUpstreamCalls, serverSearchUpstreamCalls, h]

/-- Witness for the amended C2 at the concrete query `hat`. -/
theorem c2_no_cache_two_calls_witness : pairUpstreamCalls (some "hat") = 2 :=
  c2_no_cache_two_calls (some "hat") (by decide)

/-- C3: the limit sent upstream is the parsed requested value exactly when
that parse is 10, 28 or 30, and 30 otherwise (including when `parseInt`
returns `NaN` or the parameter is absent). -/
theorem c3_limit_snapping :
    (∀ (s : String) (v : Int), parseIntJS s = some v →
      effectiveLimit (some s) = if v = 10 ∨ v = 28 ∨ v = 30 then v else 30) ∧
    (∀ s : String, parseIntJS s = none → effectiveLimit (some s) = 30) ∧
    effectiveLimit none = 30 := by
  refine ⟨?_, ?_, by decide⟩
  · intro s v h
    simp [effectiveLimit, allowedLimit, h]
  · intro s h
    simp [effectiveLimit, allowedLimit, h]

/-- Witness for C3: `limit=15` is coerced to 30 and `limit=28` passes
through unchanged. -/
theorem c3_limit_snapping_witness :
    effectiveLimit (some "15") = 30 ∧ effectiveLimit (some "28") = 28 := by
  constructor
  · have h := c3_limit_snapping.1 "15" 15 (by decide)
    rw [if_neg (by decide)] at h
    exact h
  · have h := c3_limit_snapping.1 "28" 28 (by decide)
    rw [if_pos (by decide)] at h
    exact h

/-- Concrete upstream record with `assetTypeId = 28` for C4. -/
def hatItem : UpstreamItem :=
  ⟨some 1, some "Fedora", some 50, some "classic hat", some 2, some 28,
    some "ROBLOX", some true⟩

/-- C4 counterexample: the search handler computes no `itemType` field at
all.  The normalized item built from an upstream record with
`assetTypeId = 28` has no `itemType` key, in particular not the value
`Hat` the claim predicts. -/
theorem c4_counterexample :
    (formatSearchItem hatItem).lookup "itemType" = none ∧
      ¬ (formatSearchItem hatItem).lookup "itemType" = some (JVal.jstr "Hat") := by
  decide

/-- C4 amended: no lookup table from `assetTypeId` to an `itemType` name
exists in the code.  Every normalized search item carries no `itemType`
field, and the raw `assetTypeId` is passed through unchanged (present
exactly when the upstream record carries one). -/
theorem c4_no_itemType_field (i : UpstreamItem) :
    (formatSearchItem i).lookup "itemType" = none ∧
      (formatSearchItem i).lookup "assetTypeId" = i.assetTypeId.map JVal.jnum :=
  ⟨formatSearchItem_itemType i, formatSearchItem_assetTypeId i⟩

/-- C5 counterexample: `3.5` and `0` are not well-formed positive integers,
yet the item-detail validation (`!assetId || isNaN(assetId)`) admits them
and the handler proceeds to the upstream call instead of returning 400. -/
theorem c5_counterexample :
    isWellFormedPositiveInt "3.5" = false ∧
      itemDetailFirstStep "3.5" = ItemPhase.upstreamCall ∧
      isWellFormedPositiveInt "0" = false ∧
      itemDetailFirstStep "0" = ItemPhase.upstreamCall := by
  decide

/-- C5 amended: the item-detail handler returns the 400 validation error
exactly for an `assetId` that is empty or fails JS `isNaN` (does not coerce
to a number, e.g. `abc`); every numeric string — including non-integer and
non-positive ones — passes validation and reaches the upstream call. -/
theorem c5_isNaN_validation (s : String) :
    (jsIsNaN s = true → itemDetailFirstStep s = ItemPhase.validationError) ∧
      (s ≠ "" → jsIsNaN s = false →
        itemDetailFirstStep s = ItemPhase.upstreamCall) := by
  constructor
  · intro h
    simp [itemDetailFirstStep, h]
  · intro h1 h2
    simp [itemDetailFirstStep, h1, h2]

/-- Witness for the amended C5: `abc` is rejected with the validation error
and the numeric string `42` reaches the upstream call. -/
theorem c5_isNaN_validation_witness :
    itemDetailFirstStep "abc" = ItemPhase.validationError ∧
      itemDetailFirstStep "42" = ItemPhase.upstreamCall :=
  ⟨(c5_isNaN_validation "abc").1 (by decide),
    (c5_isNaN_validation "42").2 (by decide) (by decide)⟩

/-- C6 counterexample: in the rate-limited variant an upstream 404 on a
search request falls through to the generic 500 (the search catch block has
no 404 branch), and an upstream 400 on an item-detail request is turned
into a 404, not the generic 500 the claim predicts for statuses other than
429 and 404. -/
theorem c6_counterexample :
    (searchErrorResponseRL ⟨some 404, none, "Request failed with status code 404"⟩).httpStatus = 500 ∧
      ¬ (searchErrorResponseRL ⟨some 404, none, "Request failed with status code 404"⟩).httpStatus = 404 ∧
      (itemErrorResponseRL ⟨some 400, none, "Request failed with status code 400"⟩).httpStatus = 404 ∧
      ¬ (itemErrorResponseRL ⟨some 400, none, "Request failed with status code 400"⟩).httpStatus = 500 := by
  decide

/-- C6 amended: in the rate-limited variant, an upstream 429 is translated
by both the search and the item-detail catch blocks into a 429 whose error
text is distinct from the local governor's; the item-detail handler maps
upstream 404 — and also upstream 400 — to a 404; every other upstream error,
including an upstream 404 on a search request, becomes a generic 500
carrying the upstream message in `details`. -/
theorem c6_upstream_error_mapping (e : AxiosError) :
    (e.status = some 429 →
      searchErrorResponseRL e = ⟨429, upstreamThrottledText, none⟩ ∧
        itemErrorResponseRL e = ⟨429, upstreamThrottledText, none⟩) ∧
      upstreamThrottledText ≠ rateLimitErrorText ∧
      (e.status = some 404 →
        itemErrorResponseRL e = ⟨404, "Item not found", none⟩) ∧
      (e.status = some 400 →
        itemErrorResponseRL e = ⟨404, "Item not found or invalid asset ID", none⟩) ∧
      (e.status ≠ some 429 →
        searchErrorResponseRL e = ⟨500, "Failed to search catalog", some e.message⟩) ∧
      (e.status ≠ some 429 → e.status ≠ some 400 → e.status ≠ some 404 →
        itemErrorResponseRL e = ⟨500, "Failed to get item details", some e.message⟩) := by
  refine ⟨?_, by decide, ?_, ?_, ?_, ?_⟩ <;>
    intros <;>
    simp_all [searchErrorResponseRL, itemErrorResponseRL]

/-- Witness for the amended C6: an upstream 404 on item detail yields the
404 body, and an upstream 429 on search yields the distinct throttled
429 body. -/
theorem c6_upstream_error_mapping_witness :
    itemErrorResponseRL ⟨some 404, none, "nf"⟩ = ⟨404, "Item not found", none⟩ ∧
      searchErrorResponseRL ⟨some 429, none, "throttled"⟩ =
        ⟨429, upstreamThrottledText, none⟩ :=
  ⟨(c6_upstream_error_mapping ⟨some 404, none, "nf"⟩).2.2.1 rfl,
    ((c6_upstream_error_mapping ⟨some 429, none, "throttled"⟩).1 rfl).1⟩

/-- C7 counterexample: neither item-detail catch block has a timeout branch.
A timeout failure (`error.code = ECONNABORTED`, no HTTP response) on
`GET /api/item/:assetId` yields a generic 500 in both variants, not the 408
the claim asserts. -/
theorem c7_counterexample :
    (itemErrorResponseSJ ⟨none, some "ECONNABORTED", "timeout of 10000ms exceeded"⟩).httpStatus = 500 ∧
      ¬ (itemErrorResponseSJ ⟨none, some "ECONNABORTED", "timeout of 10000ms exceeded"⟩).httpStatus = 408 ∧
      (itemErrorResponseRL ⟨none, some "ECONNABORTED", "timeout of 15000ms exceeded"⟩).httpStatus = 500 := by
  decide

/-- C7 amended: an upstream timeout on an item-detail request yields the
generic 500 failure (with the axios message in `details`) in both the
`server.js` and the rate-limited variants; only the `server.js` search
handler maps `ECONNABORTED` to 408. -/
theorem c7_item_timeout_is_500 (m : String) :
    itemErrorResponseSJ ⟨none, some "ECONNABORTED", m⟩ =
        ⟨500, "Failed to get item details", some m⟩ ∧
      itemErrorResponseRL ⟨none, some "ECONNABORTED", m⟩ =
        ⟨500, "Failed to get item details", some m⟩ ∧
      searchErrorResponseSJ ⟨none, some "ECONNABORTED", m⟩ =
        ⟨408, "Request timeout - Roblox API is slow to respond", none⟩ := by
  refine ⟨?_, ?_, ?_⟩ <;>
    simp [itemErrorResponseSJ, itemErrorResponseRL, searchErrorResponseSJ]

/-- C8 counterexample: the rate middleware is installed with `app.use`
before the routes, so it runs first.  With an exhausted window (count 10,
window opened at 0) a search with a blank query at 1000 ms is answered with
the 429 rate-limit denial, not the 400 validation error the claim
requires. -/
theorem c8_counterexample :
    (searchPipeline ⟨10, 0⟩ 1000 (some "") "All" none).1 =
        SearchOutcome.rateLimited 429
          ⟨rateLimitErrorText, rateLimitMessageText, 59⟩ ∧
      ¬ (searchPipeline ⟨10, 0⟩ 1000 (some "") "All" none).1 =
          SearchOutcome.validationError 400 "Search query is required" := by
  decide

/-- C8 amended: every request passes RATE_CHECK (the `app.use` middleware)
before VALIDATE: a denial by the governor pre-empts validation regardless of
the query; when the governor admits the request, an invalid query is
rejected with the 400 validation error; and only a request that passes both
gates reaches the upstream fetch. -/
theorem c8_rate_check_before_validate (st : RateState) (now : Nat)
    (q : Option String) (c : String) (l : Option String) :
    (∀ (s : Nat) (b : RateLimitBody) (st1 : RateState),
      rateMiddleware st now = .denied s b st1 →
        (searchPipeline st now q c l).1 = .rateLimited s b) ∧
      (∀ st1 : RateState, rateMiddleware st now = .passed st1 →
        queryInvalid q = true →
          (searchPipeline st now q c l).1 =
            .validationError 400 "Search query is required") ∧
      (∀ p : SearchParams, (searchPipeline st now q c l).1 = .upstreamFetch p →
        queryInvalid q = false) := by
  refine ⟨?_, ?_, ?_⟩
  · intro s b st1 h
    simp [searchPipeline, h]
  · intro st1 h hq
    cases q with
    | none => simp [searchPipeline, h]
    | some s0 => simp [searchPipeline, h, hq]
  · intro p h
    cases hmw : rateMiddleware st now with
    | denied s b st1 => simp [searchPipeline, hmw] at h
    | passed st1 =>
      cases q with
      | none => simp [searchPipeline, hmw] at h
      | some s0 =>
        by_cases hq : queryInvalid (some s0)
        · simp [searchPipeline, hmw, hq] at h
        · simpa using hq

/-- Witness for the amended C8 at a concrete exhausted window: a blank-query
search is answered with the governor's 429 denial. -/
theorem c8_rate_check_before_validate_witness :
    (searchPipeline ⟨10, 0⟩ 2000 (some "x") "All" none).1 =
      SearchOutcome.rateLimited 429
        ⟨rateLimitErrorText, rateLimitMessageText, 58⟩ :=
  (c8_rate_check_before_validate ⟨10, 0⟩ 2000 (some "x") "All" none).1 429
    ⟨rateLimitErrorText, rateLimitMessageText, 58⟩ ⟨10, 0⟩ (by decide)

/-- Five concrete upstream search records with base prices 1 through 5. -/
def fiveItems : List UpstreamItem :=
  [⟨some 11, some "a", some 1, some "d1", some 21, some 8, some "u", some true⟩,
    ⟨some 12, some "b", some 2, some "d2", some 22, some 8, some "u", some true⟩,
    ⟨some 13, some "c", some 3, some "d3", some 23, some 8, some "u", some false⟩,
    ⟨some 14, some "d", some 4, some "d4", some 24, some 8, some "u", some true⟩,
    ⟨some 15, some "e", some 5, some "d5", some 25, some 8, some "u", none⟩]

/-- C9 counterexample: no enrichment step exists.  A valid search whose
upstream response holds five records issues exactly one upstream call (the
search itself) — while the claimed per-item secondary price lookups for five
results would require six — and all five returned prices are the unchanged
base prices, so the claimed "four with detailed prices" outcome cannot
occur. -/
theorem c9_counterexample :
    serverSearchUpstreamCalls (some "hat") = 1 ∧
      ¬ serverSearchUpstreamCalls (some "hat") = 6 ∧
      (searchResponseBody (some fiveItems)).length = 5 ∧
      (searchResponseBody (some fiveItems)).map (fun kv => kv.lookup "price") =
        [some (JVal.jnum 1), some (JVal.jnum 2), some (JVal.jnum 3),
          some (JVal.jnum 4), some (JVal.jnum 5)] := by
  decide

/-- C9 amended: the search handler performs no per-item enrichment.  It
makes exactly one upstream call per admitted request, returns one output
item per upstream record (same length, so the length-preservation half of
the claim does hold), and every output price is the record's base price with
the `|| 0` default — never a secondarily fetched detailed price. -/
theorem c9_no_enrichment (q : Option String) (l : List UpstreamItem)
    (h : queryInvalid q = false) :
    serverSearchUpstreamCalls q = 1 ∧
      (searchResponseBody (some l)).length = l.length ∧
      (searchResponseBody (some l)).map (fun kv => kv.lookup "price") =
        l.map (fun i => some (JVal.jnum (jsNumOrZero i.price))) := by
  refine ⟨by simp [serverSearchUpstreamCalls, h], by simp [searchResponseBody], ?_⟩
  simp only [searchResponseBody, List.map_map]
  exact List.map_congr_left (fun i _ => formatSearchItem_price i)

/-- Witness for the amended C9 at the concrete query `hat` and the five
concrete records. -/
theorem c9_no_enrichment_witness :
    serverSearchUpstreamCalls (some "hat") = 1 ∧
      (searchResponseBody (some fiveItems)).length = fiveItems.length :=
  ⟨(c9_no_enrichment (some "hat") fiveItems (by decide)).1,
    (c9_no_enrichment (some "hat") fiveItems (by decide)).2.1⟩

/-- Concrete upstream record with no price and no `isForSale` field. -/
def bareItem : UpstreamItem :=
  ⟨some 7, some "thing", none, some "d", none, none, some "maker", none⟩

/-- C10 counterexample: the category-listing mapping has no `isForSale`
field at all, so for an upstream record lacking `isForSale` the category
item does not carry `isForSale: false` as the claim asserts (its `price`
does default to 0). -/
theorem c10_counterexample :
    (formatCategoryItem bareItem).lookup "isForSale" = none ∧
      ¬ (formatCategoryItem bareItem).lookup "isForSale" =
          some (JVal.jbool false) ∧
      (formatCategoryItem bareItem).lookup "price" = some (JVal.jnum 0) := by
  decide

/-- C10 amended: for search, popular-items and category-listing requests an
upstream body without the `data` field yields the empty array response;
`price` defaults to 0 in all three per-item mappings when the upstream price
is absent or falsy; `isForSale` defaults to `false` in the search mapping
only — the popular and category mappings emit no `isForSale` key at all. -/
theorem c10_empty_guard_and_defaults :
    (searchResponseBody none = [] ∧ popularResponseBody none = [] ∧
        categoryResponseBody none = []) ∧
      (∀ i : UpstreamItem,
        (formatSearchItem i).lookup "price" =
            some (JVal.jnum (jsNumOrZero i.price)) ∧
          (formatPopularItem i).lookup "price" =
            some (JVal.jnum (jsNumOrZero i.price)) ∧
          (formatCategoryItem i).lookup "price" =
            some (JVal.jnum (jsNumOrZero i.price)) ∧
          (formatSearchItem i).lookup "isForSale" =
            some (JVal.jbool (jsBoolOrFalse i.isForSale)) ∧
          (formatPopularItem i).lookup "isForSale" = none ∧
          (formatCategoryItem i).lookup "isForSale" = none) ∧
      (jsNumOrZero none = 0 ∧ jsNumOrZero (some 0) = 0 ∧
        jsBoolOrFalse none = false) := by
  refine ⟨⟨rfl, rfl, rfl⟩, ?_, by decide⟩
  intro i
  exact ⟨formatSearchItem_price i, formatPopularItem_price i,
    formatCategoryItem_price i, formatSearchItem_isForSale i,
    formatPopularItem_isForSale i, formatCategoryItem_isForSale i⟩
